import Mathlib

/-!
Shallow embedding of the SmartEducationSystem exam-portal backend
(`src/exam-portal/backend/uploads/server.js` together with the mongoose
schemas for `User`, `Material` and `Chat`).

Modelling conventions:
* MongoDB documents are Lean structures; a collection is a `List` kept in
  insertion order (`create` appends at the end, `find()` with no sort
  returns the list as stored, `findById` is `List.find?` on the `id`
  field, `findByIdAndDelete` erases the first document with that id,
  `save` of a modified document replaces it in place).
* Machine strings are Lean `String`; JavaScript truthiness of an optional
  request field is `jsTruthy`; `parseInt` is `jsParseInt`, returning
  `none` for `NaN`.  A mongo equality filter built from `NaN` matches no
  stored document (stored semesters are always real integers), which the
  embedding renders as the `none` branch of `jsParseInt` matching nothing.
* `$regex: pat, $options: i` filters are modelled as case-insensitive
  substring containment, the semantics they have for metacharacter-free
  patterns (and the semantics the specification ascribes to them).
* `bcrypt.hash` is an abstract parameter `hashFn`; `jwt.sign` is modelled
  by the `Claims` payload itself (the token's signed content).
* Every route handler runs after `authMiddleware`, so handlers take the
  decoded `Claims` where they use them.  A handler returns
  `Except ApiError ...`; returning an error models responding before any
  store mutation, so the store is unchanged in every error case.  The
  `step` function makes that explicit for the store-mutating operations.
-/

namespace ExamPortal

/-- JavaScript `hay.includes(pat)`: substring containment. -/
def jsIncludes (hay pat : String) : Bool :=
  decide (List.IsInfix pat.toList hay.toList)

/-- Leading decimal digits of a character list. -/
def leadingDigits (cs : List Char) : List Char :=
  cs.takeWhile (fun c => c.isDigit)

/-- Numeric value of a (known-digit) character list, most significant first. -/
def digitsToNat (cs : List Char) : Nat :=
  cs.foldl (fun a c => a * 10 + (c.toNat - 48)) 0

/-- JavaScript `parseInt(s)` in radix 10: skip leading whitespace, optional
sign, then the longest run of leading digits; `none` models `NaN`. -/
def jsParseInt (s : String) : Option Int :=
  let cs := s.toList.dropWhile (fun c => c.isWhitespace)
  match cs with
  | '-' :: rest =>
      let d := leadingDigits rest
      if d.isEmpty then none else some (-(digitsToNat d : Int))
  | '+' :: rest =>
      let d := leadingDigits rest
      if d.isEmpty then none else some (digitsToNat d : Int)
  | _ =>
      let d := leadingDigits cs
      if d.isEmpty then none else some (digitsToNat d : Int)

/-- JavaScript truthiness of an optional string request field: absent,
`undefined` and the empty string are falsy. -/
def jsTruthy (o : Option String) : Bool :=
  match o with
  | none => false
  | some s => !(s == "")

/-- JavaScript `parseInt(x) || d` (both `NaN` and `0` are falsy). -/
def jsOrDefault (o : Option Int) (d : Int) : Int :=
  match o with
  | none => d
  | some 0 => d
  | some k => k

/-- `parseInt` applied to an optional query parameter
(`parseInt(undefined)` is `NaN`). -/
def jsParseIntOpt (o : Option String) : Option Int :=
  match o with
  | none => none
  | some s => jsParseInt s

/-- JavaScript `s.toLowerCase()` over the characters (char-list
implementation, equivalent to `String.toLower`, so that concrete instances
evaluate). -/
def jsToLower (s : String) : String :=
  String.mk (s.toList.map Char.toLower)

/-- JavaScript `s.trim()`: strip whitespace from both ends (char-list
implementation, so that concrete instances evaluate). -/
def jsTrim (s : String) : String :=
  String.mk (((s.toList.dropWhile Char.isWhitespace).reverse.dropWhile Char.isWhitespace).reverse)

/-- `email.toLowerCase().trim()` as performed by the register/login routes. -/
def normEmail (e : String) : String :=
  jsTrim (jsToLower e)

/-- A stored user document (mongoose `User` schema). -/
structure User where
  id : Nat
  name : String
  email : String
  password : String
  role : String
  department : String
  semester : Int
  createdAt : Nat
  deriving Repr, DecidableEq

/-- A stored material document (mongoose `Material` schema).  The schema
field `type` is a Lean keyword and is embedded as `mtype`. -/
structure Material where
  id : Nat
  title : String
  description : String
  subject : String
  department : String
  semester : Int
  mtype : String
  year : Option Int
  fileUrl : String
  fileName : String
  uploadedBy : Nat
  uploadedByName : String
  likes : List Nat
  downloads : Nat
  createdAt : Nat
  deriving Repr, DecidableEq

/-- A stored chat document (mongoose `Chat` schema). -/
structure ChatEntry where
  id : Nat
  userId : Nat
  message : String
  response : String
  createdAt : Nat
  deriving Repr, DecidableEq

/-- The persistent state: the three MongoDB collections, each in insertion
order. -/
structure Store where
  users : List User
  materials : List Material
  chats : List ChatEntry
  deriving Repr, DecidableEq

/-- Decoded token payload (`jwt.sign({ userId, role, email }, ...)`). -/
structure Claims where
  userId : Nat
  role : String
  email : String
  deriving Repr, DecidableEq

/-- The error responses the handlers produce, by HTTP status. -/
inductive ApiError where
  | badRequest (msg : String)
  | unauthorized (msg : String)
  | forbidden (msg : String)
  | notFound (msg : String)
  | server (msg : String)
  deriving Repr, DecidableEq

/-- `Material.findById` over the collection. -/
def findMaterial (st : Store) (mid : Nat) : Option Material :=
  st.materials.find? (fun m => m.id == mid)

/-- In-place `material.save()` after mutating the document with this id. -/
def replaceMaterial (st : Store) (mid : Nat) (m' : Material) : Store :=
  { st with materials := st.materials.map (fun x => if x.id == mid then m' else x) }

/-- The `user` object the auth routes place in their JSON responses:
explicitly the six fields `{ id, name, email, role, department, semester }`. -/
def userSummary (u : User) : List (String × String) :=
  [("id", toString u.id), ("name", u.name), ("email", u.email),
   ("role", u.role), ("department", u.department), ("semester", toString u.semester)]

/-- Body of `POST /api/auth/register` (all JSON fields optional at the wire). -/
structure RegisterReq where
  name : Option String
  email : Option String
  password : Option String
  role : Option String
  department : Option String
  semester : Option String
  deriving Repr, DecidableEq

/-- Successful auth response: the signed token payload and the user summary. -/
structure AuthResp where
  token : Claims
  user : List (String × String)
  deriving Repr, DecidableEq

/-- `POST /api/auth/register`: presence validation, duplicate-email check on
the lower-cased trimmed email, then `User.create` (appending to the
collection) and a token.  `hashFn` abstracts `bcrypt.hash`; `newId`/`now`
are the id and timestamp the store assigns. -/
def register (st : Store) (r : RegisterReq) (hashFn : String → String)
    (newId now : Nat) : Except ApiError (Store × AuthResp) :=
  if !jsTruthy r.name || !jsTruthy r.email || !jsTruthy r.password || !jsTruthy r.role then
    .error (.badRequest "All fields are required")
  else
    let em := normEmail (r.email.getD "")
    match st.users.find? (fun u => u.email == em) with
    | some _ => .error (.badRequest "User already exists with this email")
    | none =>
      match (if jsTruthy r.semester then jsParseInt (r.semester.getD "") else some 1) with
      | none =>
          -- `parseInt` gave NaN and the mongoose Number cast rejects it
          .error (.server "User validation failed: semester: Cast to Number failed")
      | some semVal =>
          let u : User :=
            { id := newId, name := (r.name.getD "").trim, email := em,
              password := hashFn (r.password.getD ""),
              role := r.role.getD "",
              department := if jsTruthy r.department then r.department.getD "" else "Computer Science",
              semester := semVal, createdAt := now }
          .ok ({ st with users := st.users ++ [u] },
               { token := { userId := u.id, role := u.role, email := u.email },
                 user := userSummary u })

/-- `POST /api/auth/login`: find by normalized email, compare the bcrypt
hash (modelled as equality of `hashFn password` with the stored hash). -/
def login (st : Store) (email password : Option String)
    (hashFn : String → String) : Except ApiError AuthResp :=
  if !jsTruthy email || !jsTruthy password then
    .error (.badRequest "Email and password are required")
  else
    match st.users.find? (fun u => u.email == normEmail (email.getD "")) with
    | none => .error (.badRequest "Invalid email or password")
    | some u =>
        if hashFn (password.getD "") == u.password then
          .ok { token := { userId := u.id, role := u.role, email := u.email },
                user := userSummary u }
        else .error (.badRequest "Invalid email or password")

/-- `GET /api/auth/me`: look the claims' user up and return its summary. -/
def getMe (st : Store) (claims : Claims) : Except ApiError (List (String × String)) :=
  match st.users.find? (fun u => u.id == claims.userId) with
  | none => .error (.notFound "User not found")
  | some u => .ok (userSummary u)

/-- Query string of `GET /api/materials` (the schema field `type` is
embedded as `mtype`). -/
structure MaterialsQuery where
  department : Option String
  semester : Option String
  subject : Option String
  mtype : Option String
  search : Option String
  limit : Option String
  page : Option String
  deriving Repr, DecidableEq

/-- The query with no parameter supplied. -/
def MaterialsQuery.empty : MaterialsQuery :=
  { department := none, semester := none, subject := none, mtype := none,
    search := none, limit := none, page := none }

/-- The mongo query object built by `GET /api/materials`, as a predicate on a
stored material: equality for `department` and `type`, equality against
`parseInt(semester)` (a NaN value matches no stored document), and
case-insensitive substring for `subject` and for `search` over
title/description/subject. -/
def materialMatches (q : MaterialsQuery) (m : Material) : Bool :=
  (if jsTruthy q.department then m.department == q.department.getD "" else true)
  && (if jsTruthy q.semester then
        match jsParseInt (q.semester.getD "") with
        | some k => m.semester == k
        | none => false
      else true)
  && (if jsTruthy q.mtype then m.mtype == q.mtype.getD "" else true)
  && (if jsTruthy q.subject then
        jsIncludes m.subject.toLower (q.subject.getD "").toLower
      else true)
  && (if jsTruthy q.search then
        jsIncludes m.title.toLower (q.search.getD "").toLower
        || jsIncludes m.description.toLower (q.search.getD "").toLower
        || jsIncludes m.subject.toLower (q.search.getD "").toLower
      else true)

/-- Insert a material into a list that is already sorted by creation time
descending, keeping it sorted. -/
def insertByCreated (m : Material) : List Material → List Material
  | [] => [m]
  | a :: t => if a.createdAt ≤ m.createdAt then m :: a :: t else a :: insertByCreated m t

/-- `.sort({ createdAt: -1 })`: newest first.  (Insertion sort; MongoDB
fixes only the key order, ties are unspecified.) -/
def sortByCreatedDesc : List Material → List Material
  | [] => []
  | a :: t => insertByCreated a (sortByCreatedDesc t)

/-- `GET /api/materials`: filter, sort newest-first, then
`skip((page-1)*limit).limit(limit)` with `parseInt(page) || 1` and
`parseInt(limit) || 100`. -/
def getMaterials (st : Store) (q : MaterialsQuery) : List Material :=
  let filtered := st.materials.filter (materialMatches q)
  let sorted := sortByCreatedDesc filtered
  let pageNum := jsOrDefault (jsParseIntOpt q.page) 1
  let limitNum := jsOrDefault (jsParseIntOpt q.limit) 100
  let skip := (pageNum - 1) * limitNum
  (sorted.drop skip.toNat).take limitNum.toNat

/-- `GET /api/materials/:id`. -/
def getMaterialById (st : Store) (mid : Nat) : Except ApiError Material :=
  match findMaterial st mid with
  | none => .error (.notFound "Material not found")
  | some m => .ok m

/-- The like-route mutation of the likes array: `findIndex` on the user id
followed by `splice(likeIndex, 1)` removes the first occurrence, i.e.
`List.erase`; otherwise `push` appends the id. -/
def toggleLike (likes : List Nat) (uid : Nat) : List Nat :=
  if likes.contains uid then likes.erase uid else likes ++ [uid]

/-- `POST /api/materials/:id/like`: toggle the caller in the likes array,
save, and answer with the new length and whether the caller is now in it. -/
def likeMaterial (st : Store) (claims : Claims) (mid : Nat) :
    Except ApiError (Store × Nat × Bool) :=
  match findMaterial st mid with
  | none => .error (.notFound "Material not found")
  | some m =>
      let l' := toggleLike m.likes claims.userId
      let m' := { m with likes := l' }
      .ok (replaceMaterial st mid m', l'.length, l'.contains claims.userId)

/-- `POST /api/materials/:id/download`: `downloads = (downloads || 0) + 1`,
save, and answer with the new counter. -/
def downloadMaterial (st : Store) (mid : Nat) : Except ApiError (Store × Nat) :=
  match findMaterial st mid with
  | none => .error (.notFound "Material not found")
  | some m =>
      let m' := { m with downloads := m.downloads + 1 }
      .ok (replaceMaterial st mid m', m'.downloads)

/-- `DELETE /api/materials/:id` behind `facultyOnly`: role gate first, then
`findById`, then `findByIdAndDelete` (remove the document with this id). -/
def deleteMaterial (st : Store) (claims : Claims) (mid : Nat) :
    Except ApiError Store :=
  if !(claims.role == "faculty") then .error (.forbidden "Access denied. Faculty only.")
  else
    match findMaterial st mid with
    | none => .error (.notFound "Material not found")
    | some _ => .ok { st with materials := st.materials.eraseP (fun m => m.id == mid) }

/-- Body of `POST /api/materials` (multipart metadata fields). -/
structure UploadReq where
  title : Option String
  description : Option String
  subject : Option String
  department : Option String
  semester : Option String
  mtype : Option String
  year : Option String
  deriving Repr, DecidableEq

/-- The uploaded file as multer hands it to the route. -/
structure FileInfo where
  filename : String
  originalname : String
  deriving Repr, DecidableEq

/-- The `type` enum of the material schema. -/
def materialTypes : List String := ["notes", "pyq", "syllabus", "reference"]

/-- `POST /api/materials` behind `facultyOnly`: role gate, file-presence
check, then `Material.create` appending the new document.  Mongoose-level
failures (required field absent, bad `type` enum value, NaN semester/year
cast) surface as 500 responses from the route's catch. -/
def uploadMaterial (st : Store) (claims : Claims) (r : UploadReq)
    (file : Option FileInfo) (newId now : Nat) : Except ApiError (Store × Material) :=
  if !(claims.role == "faculty") then .error (.forbidden "Access denied. Faculty only.")
  else
    match file with
    | none => .error (.badRequest "No file uploaded")
    | some f =>
        match jsParseIntOpt r.semester with
        | none => .error (.server "Material validation failed: semester: Cast to Number failed")
        | some semVal =>
          match (if jsTruthy r.year then (jsParseInt (r.year.getD "")).map some else some none) with
          | none => .error (.server "Material validation failed: year: Cast to Number failed")
          | some yearVal =>
            if !(jsTruthy r.title && jsTruthy r.subject && jsTruthy r.department
                 && materialTypes.contains (r.mtype.getD "")) then
              .error (.server "Material validation failed")
            else
              let uploaderName :=
                match st.users.find? (fun u => u.id == claims.userId) with
                | some u => if u.name == "" then "Faculty" else u.name
                | none => "Faculty"
              let m : Material :=
                { id := newId, title := (r.title.getD "").trim,
                  description := r.description.getD "",
                  subject := r.subject.getD "", department := r.department.getD "",
                  semester := semVal, mtype := r.mtype.getD "", year := yearVal,
                  fileUrl := "/uploads/" ++ f.filename, fileName := f.originalname,
                  uploadedBy := claims.userId, uploadedByName := uploaderName,
                  likes := [], downloads := 0, createdAt := now }
              .ok ({ st with materials := st.materials ++ [m] }, m)

/-- Canned chatbot reply for the PYQ keyword group. -/
def pyqResponse : String :=
  "You can find previous year question papers in the Materials section. Filter by \"PYQ\" type to see all available papers. Would you like me to help you find papers for a specific subject?"

/-- Canned chatbot reply for the notes keyword group. -/
def notesResponse : String :=
  "Study notes are available in the Materials section. You can filter by subject, semester, and department to find relevant notes for your courses. Just click on Materials in the navigation menu!"

/-- Canned chatbot reply for the syllabus keyword group. -/
def syllabusResponse : String :=
  "Syllabus documents are available in the Materials section. Filter by \"Syllabus\" type to view the curriculum for different courses. This will help you plan your studies better!"

/-- Canned chatbot reply for the exam-preparation keyword group. -/
def examResponse : String :=
  "I can help you with exam preparation! We have notes, PYQs, and reference materials. What subject are you preparing for? I can guide you to the right materials."

/-- Canned chatbot reply for the download keyword group. -/
def downloadResponse : String :=
  "To download materials: 1) Go to the Materials page, 2) Find the document you need using filters or search, 3) Click the green \"Download\" button. Make sure you\x27re logged in!"

/-- Canned chatbot reply for the upload keyword group. -/
def uploadResponse : String :=
  "Only faculty members can upload materials. If you\x27re a faculty member, use the Upload button in the navigation menu to share notes, PYQs, or other study materials with students."

/-- Canned chatbot reply for the greeting keyword group. -/
def helloResponse : String :=
  "Hello! 👋 I\x27m your AI study assistant. I can help you find study materials, PYQs, and answer questions about using the portal. What would you like to know?"

/-- Canned chatbot reply for the thanks keyword group. -/
def thankResponse : String :=
  "You\x27re welcome! 😊 Feel free to ask if you need any other help with your studies or using the portal."

/-- Generic chatbot menu reply when no keyword group matches. -/
def menuResponse : String :=
  "I\x27m here to help with your academic queries! You can ask me about:\n• Finding study materials and notes\n• Previous year question papers (PYQs)\n• Exam preparation tips\n• How to download or upload materials\n• Using the portal features\n\nWhat would you like to know?"

/-- The keyword chain of `POST /api/chat`: lower-case the message and walk
the if/else-if ladder, answering with the first matching canned reply. -/
def chatResponseFor (message : String) : String :=
  let lowerMessage := message.toLower
  if jsIncludes lowerMessage "pyq" || jsIncludes lowerMessage "previous year"
     || jsIncludes lowerMessage "question paper" then pyqResponse
  else if jsIncludes lowerMessage "notes" || jsIncludes lowerMessage "study material" then notesResponse
  else if jsIncludes lowerMessage "syllabus" then syllabusResponse
  else if jsIncludes lowerMessage "exam" || jsIncludes lowerMessage "preparation" then examResponse
  else if jsIncludes lowerMessage "download" || jsIncludes lowerMessage "how to download" then downloadResponse
  else if jsIncludes lowerMessage "upload" then uploadResponse
  else if jsIncludes lowerMessage "hello" || jsIncludes lowerMessage "hi"
          || jsIncludes lowerMessage "hey" then helloResponse
  else if jsIncludes lowerMessage "thank" then thankResponse
  else menuResponse

/-- `POST /api/chat`: reject a falsy message with 400 before any matching,
otherwise compute the reply and persist one `Chat` document. -/
def chatRoute (st : Store) (claims : Claims) (message : Option String)
    (newId now : Nat) : Except ApiError (Store × String) :=
  if !jsTruthy message then .error (.badRequest "Message is required")
  else
    let msg := message.getD ""
    let resp := chatResponseFor msg
    .ok ({ st with chats := st.chats ++
            [{ id := newId, userId := claims.userId, message := msg,
               response := resp, createdAt := now }] }, resp)

/-- Projection of a material in the dashboard's `recentMaterials`. -/
structure RecentMaterial where
  id : Nat
  title : String
  subject : String
  mtype : String
  createdAt : Nat
  deriving Repr, DecidableEq

/-- The aggregate counters of `GET /api/dashboard`. -/
structure DashboardStats where
  totalMaterials : Nat
  totalPYQs : Nat
  totalDownloads : Nat
  totalStudents : Nat
  totalFaculty : Nat
  deriving Repr, DecidableEq

/-- Full `GET /api/dashboard` response. -/
structure DashboardResp where
  stats : DashboardStats
  recentMaterials : List RecentMaterial
  deriving Repr, DecidableEq

/-- `GET /api/dashboard`: scans `Material.find()` (the collection in stored
order, no sort applied) for the counters, counts users per role, and takes
`materials.slice(0, 5)` of that same unsorted list as `recentMaterials`. -/
def dashboard (st : Store) : DashboardResp :=
  let materials := st.materials
  { stats :=
      { totalMaterials := materials.length,
        totalPYQs := (materials.filter (fun m => m.mtype == "pyq")).length,
        totalDownloads := materials.foldl (fun s m => s + m.downloads) 0,
        totalStudents := (st.users.filter (fun u => u.role == "student")).length,
        totalFaculty := (st.users.filter (fun u => u.role == "faculty")).length },
    recentMaterials :=
      (materials.take 5).map (fun m =>
        { id := m.id, title := m.title, subject := m.subject,
          mtype := m.mtype, createdAt := m.createdAt }) }

/-- The store-mutating operations of the system (the read-only routes
`login`, `me`, `materials` listing/lookup, chat history, dashboard and
stats never write to a collection). -/
inductive Op where
  | opRegister (r : RegisterReq) (hashFn : String → String) (newId now : Nat)
  | opUpload (claims : Claims) (r : UploadReq) (file : Option FileInfo) (newId now : Nat)
  | opLike (claims : Claims) (mid : Nat)
  | opDownload (mid : Nat)
  | opDelete (claims : Claims) (mid : Nat)
  | opChat (claims : Claims) (message : Option String) (newId now : Nat)

/-- Effect of one operation on the store; an error response leaves the
store unchanged (every handler fails before mutating). -/
def step (st : Store) : Op → Store
  | .opRegister r h i n =>
      match register st r h i n with | .ok (st', _) => st' | .error _ => st
  | .opUpload c r f i n =>
      match uploadMaterial st c r f i n with | .ok (st', _) => st' | .error _ => st
  | .opLike c mid =>
      match likeMaterial st c mid with | .ok (st', _, _) => st' | .error _ => st
  | .opDownload mid =>
      match downloadMaterial st mid with | .ok (st', _) => st' | .error _ => st
  | .opDelete c mid =>
      match deleteMaterial st c mid with | .ok st' => st' | .error _ => st
  | .opChat c m i n =>
      match chatRoute st c m i n with | .ok (st', _) => st' | .error _ => st

/-- N sequential calls of the download route on the same material. -/
def downloadIter (st : Store) (mid : Nat) : Nat → Except ApiError Store
  | 0 => .ok st
  | n + 1 =>
      match downloadMaterial st mid with
      | .error e => .error e
      | .ok (st', _) => downloadIter st' mid n

/-! Specification-side definitions, written from the spec's words, to be
compared with the definitions translated from the source. -/

/-- Case-insensitive substring containment, as the spec words it. -/
def LowerSub (hay pat : String) : Prop :=
  List.IsInfix pat.toLower.toList hay.toLower.toList

/-- The ListMaterials filter predicate as the claim words it: exact equality
for department, parsed-integer equality for semester, exact equality for
type, case-insensitive substring for subject, and a case-insensitive
substring match of search against at least one of title, description or
subject; an unsupplied filter imposes no constraint. -/
def SpecMatches (q : MaterialsQuery) (m : Material) : Prop :=
  (jsTruthy q.department = true → m.department = q.department.getD "")
  ∧ (jsTruthy q.semester = true →
       ∃ k, jsParseInt (q.semester.getD "") = some k ∧ m.semester = k)
  ∧ (jsTruthy q.mtype = true → m.mtype = q.mtype.getD "")
  ∧ (jsTruthy q.subject = true → LowerSub m.subject (q.subject.getD ""))
  ∧ (jsTruthy q.search = true →
       (LowerSub m.title (q.search.getD "")
        ∨ LowerSub m.description (q.search.getD "")
        ∨ LowerSub m.subject (q.search.getD "")))

/-- The chatbot's keyword groups with their canned responses, in the
priority order the spec lists. -/
def specKeywordGroups : List (List String × String) :=
  [(["pyq", "previous year", "question paper"], pyqResponse),
   (["notes", "study material"], notesResponse),
   (["syllabus"], syllabusResponse),
   (["exam", "preparation"], examResponse),
   (["download", "how to download"], downloadResponse),
   (["upload"], uploadResponse),
   (["hello", "hi", "hey"], helloResponse),
   (["thank"], thankResponse)]

/-- The chat responder as the spec words it: lower-case the input, find the
first keyword group one of whose keywords occurs as a substring, and
return its canned response, or the generic menu response if none match. -/
def specChatRespond (message : String) : String :=
  let lm := message.toLower
  match specKeywordGroups.find? (fun g => g.1.any (fun k => jsIncludes lm k)) with
  | some g => g.2
  | none => menuResponse

/-! Concrete fixtures used by counterexamples and witnesses. -/

/-- A deterministic stand-in for `bcrypt.hash`. -/
def exHash (s : String) : String := "h:" ++ s

/-- A sample material; its id and creation time are both `i`. -/
def mkMat (i : Nat) : Material :=
  { id := i, title := "Calc Notes", description := "", subject := "Math",
    department := "CS", semester := 2, mtype := "notes", year := none,
    fileUrl := "/uploads/f.pdf", fileName := "f.pdf", uploadedBy := 9,
    uploadedByName := "Prof", likes := [], downloads := 0, createdAt := i }

/-- The empty store. -/
def emptyStore : Store := { users := [], materials := [], chats := [] }

/-- Six materials inserted oldest-first (creation times 1..6). -/
def exStore6 : Store :=
  { users := [], materials := [mkMat 1, mkMat 2, mkMat 3, mkMat 4, mkMat 5, mkMat 6],
    chats := [] }

/-- A store holding the single material `mkMat 1`. -/
def exSt1 : Store := { users := [], materials := [mkMat 1], chats := [] }

/-- A materials query whose only parameter is a non-numeric semester. -/
def exQBadSem : MaterialsQuery := { MaterialsQuery.empty with semester := some "abc" }

/-- A materials query filtering on department CS. -/
def exQCS : MaterialsQuery := { MaterialsQuery.empty with department := some "CS" }

/-- The material `mkMat 1` already liked by user 7. -/
def exMatLiked : Material := { mkMat 1 with likes := [7] }

/-- A store holding only `exMatLiked`. -/
def exStLiked : Store := { users := [], materials := [exMatLiked], chats := [] }

/-- Claims of a student identity, user id 7. -/
def exStudent : Claims := { userId := 7, role := "student", email := "s@x.com" }

/-- Claims of a faculty identity, user id 9. -/
def exFaculty : Claims := { userId := 9, role := "faculty", email := "f@x.com" }

/-- A valid registration request. -/
def exReq1 : RegisterReq :=
  { name := some "Alice", email := some "F@X.com ", password := some "pw1",
    role := some "student", department := none, semester := none }

/-- A second registration with the same email up to case and trimming but an
empty password. -/
def exReq2 : RegisterReq :=
  { name := some "Bob", email := some "f@x.com", password := some "",
    role := some "student", department := none, semester := none }

/-- A second registration with the same email up to case and trimming and
all required fields present. -/
def exReq3 : RegisterReq :=
  { name := some "Bob", email := some "f@x.com", password := some "pw2",
    role := some "faculty", department := none, semester := none }

/-- The store after `exReq1` registered against the empty store. -/
def exSt7 : Store :=
  match register emptyStore exReq1 exHash 1 10 with
  | .ok (s, _) => s
  | .error _ => emptyStore

/-- The store after user 7 toggled a like on `exStLiked`. -/
def exStLiked1 : Store :=
  match likeMaterial exStLiked exStudent 1 with
  | .ok (s, _, _) => s
  | .error _ => exStLiked

/-- The response of `exReq1` registered against the empty store. -/
def exResp1 : AuthResp :=
  match register emptyStore exReq1 exHash 1 10 with
  | .ok (_, a) => a
  | .error _ => { token := { userId := 0, role := "", email := "" }, user := [] }

/-! Helper lemmas about the store primitives. -/

/-- Replacing the document that `find?` locates (by id) makes `find?` return
the replacement. -/
theorem find?_replace {l : List Material} {mid : Nat} {m m' : Material}
    (hm' : m'.id = mid)
    (h : l.find? (fun x => x.id == mid) = some m) :
    (l.map (fun x => if x.id == mid then m' else x)).find?
      (fun x => x.id == mid) = some m' := by
  induction l with
  | nil => simp [List.find?] at h
  | cons a t ih =>
      by_cases ha : a.id = mid
      · simp [List.find?, ha, hm']
      · have hb : (a.id == mid) = false := by simp [ha]
        have h' : List.find? (fun x => x.id == mid) t = some m := by
          rw [List.find?_cons, hb] at h
          exact h
        have hfa : (if a.id == mid then m' else a) = a := by rw [hb]; rfl
        rw [List.map_cons, hfa, List.find?_cons, hb]
        exact ih h'

/-- After erasing the (unique, by `Nodup` of ids) document with a given id,
`find?` on that id fails. -/
theorem find?_eraseP_none {l : List Material} {mid : Nat}
    (hnd : (l.map (fun m => m.id)).Nodup) :
    (l.eraseP (fun x => x.id == mid)).find? (fun x => x.id == mid) = none := by
  induction l with
  | nil => simp [List.eraseP, List.find?]
  | cons a t ih =>
      simp only [List.map_cons, List.nodup_cons] at hnd
      by_cases ha : a.id = mid
      · have : t.find? (fun x => x.id == mid) = none := by
          apply List.find?_eq_none.mpr
          intro x hx hpx
          have hxid : x.id = mid := by simpa using hpx
          exact hnd.1 (by simpa [hxid, ha] using List.mem_map_of_mem (fun m => m.id) hx)
        simpa [List.eraseP, ha] using this
      · have hb : (a.id == mid) = false := by simp [ha]
        simp [List.eraseP_cons, hb, List.find?, ih hnd.2]

/-- A successful `find?` on an id pins the found document's id. -/
theorem findMaterial_id {st : Store} {mid : Nat} {m : Material}
    (h : findMaterial st mid = some m) : m.id = mid := by
  have := List.find?_some h
  simpa using this

/-- `findMaterial` after `replaceMaterial` at the same id. -/
theorem findMaterial_replace {st : Store} {mid : Nat} {m m' : Material}
    (hm' : m'.id = mid) (h : findMaterial st mid = some m) :
    findMaterial (replaceMaterial st mid m') mid = some m' :=
  find?_replace hm' h

/-- Toggling a user into or out of a likes list and toggling again restores
the membership and the length, and the final membership flag of the user is
their original membership. -/
theorem toggleLike_toggleLike {l : List Nat} {uid : Nat} (hnd : l.Nodup) :
    (∀ x, x ∈ toggleLike (toggleLike l uid) uid ↔ x ∈ l)
    ∧ (toggleLike (toggleLike l uid) uid).length = l.length
    ∧ (toggleLike (toggleLike l uid) uid).contains uid = l.contains uid := by
  by_cases hm : uid ∈ l
  · have h1 : toggleLike l uid = l.erase uid := by
      simp [toggleLike, hm]
    have hnotm : uid ∉ l.erase uid := by
      intro hc
      exact ((hnd.mem_erase_iff.mp hc).1) rfl
    have h2 : toggleLike (l.erase uid) uid = l.erase uid ++ [uid] := by
      simp [toggleLike, hnotm]
    refine ⟨?_, ?_, ?_⟩
    · intro x
      rw [h1, h2]
      by_cases hx : x = uid
      · simp [hx, hm]
      · simp [List.mem_append, hnd.mem_erase_iff, hx]
    · rw [h1, h2]
      have hlen := List.length_erase_of_mem hm
      have hpos : 0 < l.length := List.length_pos_of_mem hm
      simp [hlen]
      omega
    · rw [h1, h2]
      simp [hm]
  · have h1 : toggleLike l uid = l ++ [uid] := by
      simp [toggleLike, hm]
    have h2 : toggleLike (l ++ [uid]) uid = l := by
      have : (l ++ [uid]).erase uid = l := by
        rw [List.erase_append_right _ hm]
        simp
      simp [toggleLike, this]
    refine ⟨?_, ?_, ?_⟩
    · intro x; rw [h1, h2]
    · rw [h1, h2]
    · rw [h1, h2]

/-! Inversion lemmas: what a successful handler run implies. -/

/-- Successful registration appends exactly one user, leaves the other
collections alone, requires that no user already had the normalized email,
and answers with that user's summary. -/
theorem register_ok_inv {st : Store} {r : RegisterReq} {hf : String → String}
    {i n : Nat} {st' : Store} {a : AuthResp}
    (h : register st r hf i n = .ok (st', a)) :
    st'.materials = st.materials ∧ st'.chats = st.chats
    ∧ ∃ u : User, st'.users = st.users ++ [u]
        ∧ u.email = normEmail (r.email.getD "")
        ∧ st.users.find? (fun x => x.email == normEmail (r.email.getD "")) = none
        ∧ a.user = userSummary u := by
  unfold register at h
  by_cases hval : (!jsTruthy r.name || !jsTruthy r.email || !jsTruthy r.password || !jsTruthy r.role) = true
  · rw [if_pos hval] at h
    simp at h
  · rw [if_neg hval] at h
    simp only [] at h
    cases hfind : List.find? (fun u => u.email == normEmail (r.email.getD "")) st.users with
    | some u0 =>
        rw [hfind] at h
        simp at h
    | none =>
        rw [hfind] at h
        simp only [] at h
        cases hsem : (if jsTruthy r.semester = true then jsParseInt (r.semester.getD "") else some 1) with
        | none => rw [hsem] at h; simp at h
        | some semVal =>
            rw [hsem] at h
            simp only [Except.ok.injEq, Prod.mk.injEq] at h
            obtain ⟨hst, ha⟩ := h
            subst hst
            exact ⟨rfl, rfl, _, rfl, rfl, rfl, ha.symm ▸ rfl⟩

/-- A successful login answers with the summary of some stored user. -/
theorem login_ok_inv {st : Store} {e p : Option String} {hf : String → String}
    {a : AuthResp} (h : login st e p hf = .ok a) :
    ∃ u : User, u ∈ st.users ∧ a.user = userSummary u := by
  unfold login at h
  by_cases hval : (!jsTruthy e || !jsTruthy p) = true
  · rw [if_pos hval] at h
    simp at h
  · rw [if_neg hval] at h
    cases hfind : List.find? (fun u => u.email == normEmail (e.getD "")) st.users with
    | none => rw [hfind] at h; simp at h
    | some u =>
        rw [hfind] at h
        simp only [] at h
        by_cases hpw : (hf (p.getD "") == u.password) = true
        · rw [if_pos hpw] at h
          simp only [Except.ok.injEq] at h
          exact ⟨u, List.mem_of_find?_eq_some hfind, h.symm ▸ rfl⟩
        · rw [if_neg hpw] at h
          simp at h

/-- A successful identity lookup answers with the summary of some stored
user. -/
theorem getMe_ok_inv {st : Store} {c : Claims} {kvs : List (String × String)}
    (h : getMe st c = .ok kvs) :
    ∃ u : User, u ∈ st.users ∧ kvs = userSummary u := by
  unfold getMe at h
  cases hfind : List.find? (fun u => u.id == c.userId) st.users with
  | none => rw [hfind] at h; simp at h
  | some u =>
      rw [hfind] at h
      simp only [Except.ok.injEq] at h
      exact ⟨u, List.mem_of_find?_eq_some hfind, h.symm⟩

/-- What a successful like toggle did to the store and answered. -/
theorem likeMaterial_ok_inv {st : Store} {c : Claims} {mid : Nat}
    {st' : Store} {n : Nat} {b : Bool}
    (h : likeMaterial st c mid = .ok (st', n, b)) :
    ∃ m, findMaterial st mid = some m
      ∧ st' = replaceMaterial st mid { m with likes := toggleLike m.likes c.userId }
      ∧ n = (toggleLike m.likes c.userId).length
      ∧ b = (toggleLike m.likes c.userId).contains c.userId := by
  unfold likeMaterial at h
  cases hfind : findMaterial st mid with
  | none => rw [hfind] at h; simp at h
  | some m =>
      rw [hfind] at h
      simp only [Except.ok.injEq, Prod.mk.injEq] at h
      exact ⟨m, rfl, h.1.symm, h.2.1.symm, h.2.2.symm⟩

/-- What a successful download increment did to the store and answered. -/
theorem downloadMaterial_ok_inv {st : Store} {mid : Nat} {st' : Store} {n : Nat}
    (h : downloadMaterial st mid = .ok (st', n)) :
    ∃ m, findMaterial st mid = some m
      ∧ st' = replaceMaterial st mid { m with downloads := m.downloads + 1 }
      ∧ n = m.downloads + 1 := by
  unfold downloadMaterial at h
  cases hfind : findMaterial st mid with
  | none => rw [hfind] at h; simp at h
  | some m =>
      rw [hfind] at h
      simp only [Except.ok.injEq, Prod.mk.injEq] at h
      exact ⟨m, rfl, h.1.symm, h.2.symm⟩

/-- A successful delete was run by a faculty identity on an existing
material and erased the document with that id. -/
theorem deleteMaterial_ok_inv {st : Store} {c : Claims} {mid : Nat} {st' : Store}
    (h : deleteMaterial st c mid = .ok st') :
    c.role = "faculty" ∧ (∃ m, findMaterial st mid = some m)
    ∧ st' = { st with materials := st.materials.eraseP (fun x => x.id == mid) } := by
  unfold deleteMaterial at h
  by_cases hrole : (!(c.role == "faculty")) = true
  · rw [if_pos hrole] at h
    simp at h
  · rw [if_neg hrole] at h
    cases hfind : findMaterial st mid with
    | none => rw [hfind] at h; simp at h
    | some m =>
        rw [hfind] at h
        simp only [Except.ok.injEq] at h
        refine ⟨?_, ⟨m, rfl⟩, h.symm⟩
        simpa using hrole

/-- A successful upload appends exactly the created material. -/
theorem uploadMaterial_ok_inv {st : Store} {c : Claims} {r : UploadReq}
    {file : Option FileInfo} {i n : Nat} {st' : Store} {m : Material}
    (h : uploadMaterial st c r file i n = .ok (st', m)) :
    st'.materials = st.materials ++ [m] ∧ st'.users = st.users := by
  unfold uploadMaterial at h
  by_cases hrole : (!(c.role == "faculty")) = true
  · rw [if_pos hrole] at h
    simp at h
  · rw [if_neg hrole] at h
    cases file with
    | none => simp at h
    | some f =>
        simp only [] at h
        cases hsem : jsParseIntOpt r.semester with
        | none => rw [hsem] at h; simp at h
        | some semVal =>
            rw [hsem] at h
            simp only [] at h
            cases hyear : (if jsTruthy r.year = true then (jsParseInt (r.year.getD "")).map some else some none) with
            | none => rw [hyear] at h; simp at h
            | some yearVal =>
                rw [hyear] at h
                simp only [] at h
                by_cases hreq : (!(jsTruthy r.title && jsTruthy r.subject && jsTruthy r.department
                    && materialTypes.contains (r.mtype.getD ""))) = true
                · rw [if_pos hreq] at h
                  simp at h
                · rw [if_neg hreq] at h
                  simp only [Except.ok.injEq, Prod.mk.injEq] at h
                  obtain ⟨hst, hm⟩ := h
                  subst hst
                  exact ⟨by simp only [hm], rfl⟩

/-- A successful chat run leaves users and materials alone and appends
exactly one chat document carrying the message and the computed reply. -/
theorem chatRoute_ok_inv {st : Store} {c : Claims} {msg : Option String}
    {i n : Nat} {st' : Store} {resp : String}
    (h : chatRoute st c msg i n = .ok (st', resp)) :
    st'.materials = st.materials ∧ st'.users = st.users
    ∧ resp = chatResponseFor (msg.getD "")
    ∧ st'.chats = st.chats ++
        [{ id := i, userId := c.userId, message := msg.getD "",
           response := chatResponseFor (msg.getD ""), createdAt := n }] := by
  unfold chatRoute at h
  by_cases hval : (!jsTruthy msg) = true
  · rw [if_pos hval] at h
    simp at h
  · rw [if_neg hval] at h
    simp only [Except.ok.injEq, Prod.mk.injEq] at h
    obtain ⟨hst, hresp⟩ := h
    subst hst
    exact ⟨rfl, rfl, hresp.symm, rfl⟩

/-- `find?` is unchanged by a map that fixes every hit and never turns a
miss into a hit. -/
theorem find?_map_of_preserve {l : List Material} {p : Material → Bool}
    {f : Material → Material}
    (hp : ∀ x, p (f x) = p x) (hfix : ∀ x, p x = true → f x = x) :
    (l.map f).find? p = l.find? p := by
  induction l with
  | nil => rfl
  | cons a t ih =>
      rw [List.map_cons, List.find?_cons, List.find?_cons, hp a]
      cases hpa : p a with
      | true => rw [hfix a hpa]
      | false => exact ih

/-- `find?` is unchanged by erasing a document that the search predicate
rejects. -/
theorem find?_eraseP_of_ne {l : List Material} {p q : Material → Bool}
    (hq : ∀ x, q x = true → p x = false) :
    (l.eraseP q).find? p = l.find? p := by
  induction l with
  | nil => rfl
  | cons a t ih =>
      cases hqa : q a with
      | true =>
          rw [List.eraseP_cons, hqa, List.find?_cons, hq a hqa]
          rfl
      | false =>
          rw [List.eraseP_cons, hqa]
          show List.find? p (a :: t.eraseP q) = _
          rw [List.find?_cons, List.find?_cons]
          cases p a with
          | true => rfl
          | false => exact ih

/-- Membership in the sorted insert. -/
theorem mem_insertByCreated {x m : Material} {l : List Material} :
    x ∈ insertByCreated m l ↔ x = m ∨ x ∈ l := by
  induction l with
  | nil => simp [insertByCreated]
  | cons a t ih =>
      rw [insertByCreated]
      by_cases hc : a.createdAt ≤ m.createdAt
      · simp [hc]
      · simp only [if_neg hc, List.mem_cons, ih]
        tauto

/-- Sorted insert preserves sortedness by creation time descending. -/
theorem pairwise_insertByCreated {m : Material} {l : List Material}
    (h : List.Pairwise (fun a b : Material => b.createdAt ≤ a.createdAt) l) :
    List.Pairwise (fun a b : Material => b.createdAt ≤ a.createdAt)
      (insertByCreated m l) := by
  induction l with
  | nil => simp [insertByCreated]
  | cons a t ih =>
      rw [insertByCreated]
      by_cases hc : a.createdAt ≤ m.createdAt
      · rw [if_pos hc]
        refine List.Pairwise.cons ?_ h
        intro b hb
        rcases List.mem_cons.mp hb with hb | hb
        · subst hb; exact hc
        · have := (List.pairwise_cons.mp h).1 b hb
          omega
      · rw [if_neg hc]
        have hm : m.createdAt ≤ a.createdAt := by omega
        obtain ⟨ha, ht⟩ := List.pairwise_cons.mp h
        refine List.Pairwise.cons ?_ (ih ht)
        intro b hb
        rcases mem_insertByCreated.mp hb with hb | hb
        · subst hb; exact hm
        · exact ha b hb

/-- The materials sort really sorts by creation time, newest first. -/
theorem sorted_sortByCreatedDesc (l : List Material) :
    List.Pairwise (fun a b : Material => b.createdAt ≤ a.createdAt)
      (sortByCreatedDesc l) := by
  induction l with
  | nil => exact List.Pairwise.nil
  | cons a t ih => exact pairwise_insertByCreated ih

/-- A boolean filter factor of the form `if supplied then test else true`
agrees with the implication the claim words it as. -/
theorem ifFilter_eq_iff {c t : Bool} {P : Prop} (h : c = true → (t = true ↔ P)) :
    (if c then t else true) = true ↔ (c = true → P) := by
  cases c with
  | false => simp
  | true => simpa using h rfl

/-- The mongo query object of the materials route agrees, document by
document, with the claim's description of the filter semantics. -/
theorem materialMatches_iff (q : MaterialsQuery) (m : Material) :
    materialMatches q m = true ↔ SpecMatches q m := by
  unfold materialMatches SpecMatches
  simp only [Bool.and_eq_true, and_assoc]
  have hd : (if jsTruthy q.department then (m.department == q.department.getD "") else true) = true
      ↔ (jsTruthy q.department = true → m.department = q.department.getD "") :=
    ifFilter_eq_iff (fun _ => by simp)
  have hsem : (if jsTruthy q.semester then
        (match jsParseInt (q.semester.getD "") with
         | some k => m.semester == k
         | none => false) else true) = true
      ↔ (jsTruthy q.semester = true →
           ∃ k, jsParseInt (q.semester.getD "") = some k ∧ m.semester = k) := by
    refine ifFilter_eq_iff (fun _ => ?_)
    cases hp : jsParseInt (q.semester.getD "") with
    | none => simp
    | some k => simp
  have ht : (if jsTruthy q.mtype then (m.mtype == q.mtype.getD "") else true) = true
      ↔ (jsTruthy q.mtype = true → m.mtype = q.mtype.getD "") :=
    ifFilter_eq_iff (fun _ => by simp)
  have hsub : (if jsTruthy q.subject then
        jsIncludes m.subject.toLower (q.subject.getD "").toLower else true) = true
      ↔ (jsTruthy q.subject = true → LowerSub m.subject (q.subject.getD "")) :=
    ifFilter_eq_iff (fun _ => by simp [jsIncludes, LowerSub])
  have hsearch : (if jsTruthy q.search then
        (jsIncludes m.title.toLower (q.search.getD "").toLower
         || jsIncludes m.description.toLower (q.search.getD "").toLower
         || jsIncludes m.subject.toLower (q.search.getD "").toLower) else true) = true
      ↔ (jsTruthy q.search = true →
           (LowerSub m.title (q.search.getD "")
            ∨ LowerSub m.description (q.search.getD "")
            ∨ LowerSub m.subject (q.search.getD ""))) :=
    ifFilter_eq_iff (fun _ => by simp [jsIncludes, LowerSub, Bool.or_eq_true, or_assoc])
  exact and_congr hd (and_congr hsem (and_congr ht (and_congr hsub hsearch)))

/-- The if/else-if keyword ladder of the chat route computes exactly the
first-matching-group lookup the spec describes. -/
theorem chatResponseFor_eq_spec (msg : String) :
    chatResponseFor msg = specChatRespond msg := by
  unfold chatResponseFor specChatRespond specKeywordGroups
  simp only [List.find?_cons, List.any_cons, List.any_nil, Bool.or_false, Bool.or_assoc]
  cases h1 : (jsIncludes msg.toLower "pyq"
      || (jsIncludes msg.toLower "previous year" || jsIncludes msg.toLower "question paper")) with
  | true => rfl
  | false =>
  cases h2 : (jsIncludes msg.toLower "notes" || jsIncludes msg.toLower "study material") with
  | true => rfl
  | false =>
  cases h3 : jsIncludes msg.toLower "syllabus" with
  | true => rfl
  | false =>
  cases h4 : (jsIncludes msg.toLower "exam" || jsIncludes msg.toLower "preparation") with
  | true => rfl
  | false =>
  cases h5 : (jsIncludes msg.toLower "download" || jsIncludes msg.toLower "how to download") with
  | true => rfl
  | false =>
  cases h6 : jsIncludes msg.toLower "upload" with
  | true => rfl
  | false =>
  cases h7 : (jsIncludes msg.toLower "hello"
      || (jsIncludes msg.toLower "hi" || jsIncludes msg.toLower "hey")) with
  | true => rfl
  | false =>
  cases h8 : jsIncludes msg.toLower "thank" with
  | true => rfl
  | false => rfl

/-- Step equation for the register operation. -/
theorem step_opRegister (st : Store) (r : RegisterReq) (hf : String → String) (i n : Nat) :
    step st (.opRegister r hf i n) =
      match register st r hf i n with | .ok (st', _) => st' | .error _ => st := rfl

/-- Step equation for the upload operation. -/
theorem step_opUpload (st : Store) (c : Claims) (r : UploadReq) (f : Option FileInfo) (i n : Nat) :
    step st (.opUpload c r f i n) =
      match uploadMaterial st c r f i n with | .ok (st', _) => st' | .error _ => st := rfl

/-- Step equation for the like operation. -/
theorem step_opLike (st : Store) (c : Claims) (mid : Nat) :
    step st (.opLike c mid) =
      match likeMaterial st c mid with | .ok (st', _, _) => st' | .error _ => st := rfl

/-- Step equation for the download operation. -/
theorem step_opDownload (st : Store) (mid : Nat) :
    step st (.opDownload mid) =
      match downloadMaterial st mid with | .ok (st', _) => st' | .error _ => st := rfl

/-- Step equation for the delete operation. -/
theorem step_opDelete (st : Store) (c : Claims) (mid : Nat) :
    step st (.opDelete c mid) =
      match deleteMaterial st c mid with | .ok st' => st' | .error _ => st := rfl

/-- Step equation for the chat operation. -/
theorem step_opChat (st : Store) (c : Claims) (m : Option String) (i n : Nat) :
    step st (.opChat c m i n) =
      match chatRoute st c m i n with | .ok (st', _) => st' | .error _ => st := rfl

/-- `findMaterial` only looks at the materials collection. -/
theorem findMaterial_congr {st' st : Store} (h : st'.materials = st.materials)
    (mid : Nat) : findMaterial st' mid = findMaterial st mid := by
  unfold findMaterial
  rw [h]

/-- Replacing the document with a different id leaves `findMaterial`
unchanged. -/
theorem findMaterial_replace_other {st : Store} {mid2 mid : Nat} {m0' : Material}
    (hne : mid2 ≠ mid) (hid' : m0'.id = mid2) :
    findMaterial (replaceMaterial st mid2 m0') mid = findMaterial st mid := by
  unfold findMaterial replaceMaterial
  apply find?_map_of_preserve
  · intro x
    by_cases hx : x.id = mid2
    · simp [hx, hid', hne]
    · simp [hx]
  · intro x hpx
    have hx : x.id = mid := by simpa using hpx
    have : (x.id == mid2) = false := by
      simp [hx]
      exact fun hc => hne hc.symm
    simp [this]

/-- Erasing the document with a different id leaves `findMaterial`
unchanged. -/
theorem findMaterial_eraseP_other {st : Store} {mid2 mid : Nat} (hne : mid2 ≠ mid) :
    findMaterial { st with materials := st.materials.eraseP (fun x => x.id == mid2) } mid
      = findMaterial st mid := by
  unfold findMaterial
  simp only []
  apply find?_eraseP_of_ne
  intro x hqx
  have hx : x.id = mid2 := by simpa using hqx
  simp [hx, hne]

/-- One download increments the found document and re-finding it sees the
incremented counter. -/
theorem downloadIter_ok (mid : Nat) (N : Nat) :
    ∀ (st : Store) (m : Material), findMaterial st mid = some m →
    ∃ st', downloadIter st mid N = .ok st'
      ∧ ∃ m', findMaterial st' mid = some m' ∧ m'.downloads = m.downloads + N := by
  induction N with
  | zero =>
      intro st m hfind
      exact ⟨st, rfl, m, hfind, rfl⟩
  | succ n ih =>
      intro st m hfind
      have hid : m.id = mid := findMaterial_id hfind
      have hdl : downloadMaterial st mid =
          .ok (replaceMaterial st mid { m with downloads := m.downloads + 1 }, m.downloads + 1) := by
        unfold downloadMaterial
        rw [hfind]
      have hfind1 : findMaterial (replaceMaterial st mid { m with downloads := m.downloads + 1 }) mid
          = some { m with downloads := m.downloads + 1 } :=
        findMaterial_replace (by simpa using hid) hfind
      obtain ⟨st', hiter, m', hfind', hdl'⟩ := ih _ _ hfind1
      refine ⟨st', ?_, m', hfind', ?_⟩
      · have hstep : downloadIter st mid (n + 1) =
            match downloadMaterial st mid with
            | .error e => .error e
            | .ok (st1, _) => downloadIter st1 mid n := rfl
        rw [hstep, hdl]
        exact hiter
      · have : m'.downloads = m.downloads + 1 + n := hdl'
        omega

/-- No store-mutating operation decreases the download counter of a
surviving material (ids unique). -/
theorem downloads_mono_step (st : Store) (op : Op) (mid : Nat) (m m' : Material)
    (hnd : (st.materials.map (fun x => x.id)).Nodup)
    (hfind : findMaterial st mid = some m)
    (hfind' : findMaterial (step st op) mid = some m') :
    m.downloads ≤ m'.downloads := by
  cases op with
  | opRegister r hf i n =>
      rw [step_opRegister] at hfind'
      cases hr : register st r hf i n with
      | error e =>
          rw [hr] at hfind'
          have h2 : findMaterial st mid = some m' := hfind'
          have hmm : m = m' := Option.some.inj (hfind.symm.trans h2)
          subst hmm
          exact Nat.le_refl _
      | ok p =>
          obtain ⟨st1, a⟩ := p
          rw [hr] at hfind'
          have h2 : findMaterial st1 mid = some m' := hfind'
          obtain ⟨hmat, -, -⟩ := register_ok_inv hr
          rw [findMaterial_congr hmat] at h2
          have hmm : m = m' := Option.some.inj (hfind.symm.trans h2)
          subst hmm
          exact Nat.le_refl _
  | opChat c msg i n =>
      rw [step_opChat] at hfind'
      cases hr : chatRoute st c msg i n with
      | error e =>
          rw [hr] at hfind'
          have h2 : findMaterial st mid = some m' := hfind'
          have hmm : m = m' := Option.some.inj (hfind.symm.trans h2)
          subst hmm
          exact Nat.le_refl _
      | ok p =>
          obtain ⟨st1, resp⟩ := p
          rw [hr] at hfind'
          have h2 : findMaterial st1 mid = some m' := hfind'
          obtain ⟨hmat, -, -⟩ := chatRoute_ok_inv hr
          rw [findMaterial_congr hmat] at h2
          have hmm : m = m' := Option.some.inj (hfind.symm.trans h2)
          subst hmm
          exact Nat.le_refl _
  | opUpload c r f i n =>
      rw [step_opUpload] at hfind'
      cases hr : uploadMaterial st c r f i n with
      | error e =>
          rw [hr] at hfind'
          have h2 : findMaterial st mid = some m' := hfind'
          have hmm : m = m' := Option.some.inj (hfind.symm.trans h2)
          subst hmm
          exact Nat.le_refl _
      | ok p =>
          obtain ⟨st1, mNew⟩ := p
          rw [hr] at hfind'
          have h2 : findMaterial st1 mid = some m' := hfind'
          obtain ⟨hmat, -⟩ := uploadMaterial_ok_inv hr
          unfold findMaterial at h2 hfind
          rw [hmat, List.find?_append, hfind] at h2
          have hmm : m = m' := Option.some.inj h2
          subst hmm
          exact Nat.le_refl _
  | opLike c mid2 =>
      rw [step_opLike] at hfind'
      cases hr : likeMaterial st c mid2 with
      | error e =>
          rw [hr] at hfind'
          have h2 : findMaterial st mid = some m' := hfind'
          have hmm : m = m' := Option.some.inj (hfind.symm.trans h2)
          subst hmm
          exact Nat.le_refl _
      | ok p =>
          obtain ⟨st1, n1, b1⟩ := p
          rw [hr] at hfind'
          have h2 : findMaterial st1 mid = some m' := hfind'
          obtain ⟨m0, hfind0, hst1, -, -⟩ := likeMaterial_ok_inv hr
          subst hst1
          have hid0 : m0.id = mid2 := findMaterial_id hfind0
          by_cases hmid : mid2 = mid
          · subst hmid
            have hm0 : m0 = m := Option.some.inj (hfind0.symm.trans hfind)
            subst hm0
            have h3 : findMaterial
                (replaceMaterial st mid2 { m0 with likes := toggleLike m0.likes c.userId }) mid2
                = some { m0 with likes := toggleLike m0.likes c.userId } :=
              findMaterial_replace (by simpa using hid0) hfind0
            have hmm : m' = { m0 with likes := toggleLike m0.likes c.userId } :=
              Option.some.inj (h2.symm.trans h3)
            subst hmm
            exact Nat.le_refl _
          · rw [findMaterial_replace_other hmid (by simpa using hid0)] at h2
            have hmm : m = m' := Option.some.inj (hfind.symm.trans h2)
            subst hmm
            exact Nat.le_refl _
  | opDownload mid2 =>
      rw [step_opDownload] at hfind'
      cases hr : downloadMaterial st mid2 with
      | error e =>
          rw [hr] at hfind'
          have h2 : findMaterial st mid = some m' := hfind'
          have hmm : m = m' := Option.some.inj (hfind.symm.trans h2)
          subst hmm
          exact Nat.le_refl _
      | ok p =>
          obtain ⟨st1, n1⟩ := p
          rw [hr] at hfind'
          have h2 : findMaterial st1 mid = some m' := hfind'
          obtain ⟨m0, hfind0, hst1, -⟩ := downloadMaterial_ok_inv hr
          subst hst1
          have hid0 : m0.id = mid2 := findMaterial_id hfind0
          by_cases hmid : mid2 = mid
          · subst hmid
            have hm0 : m0 = m := Option.some.inj (hfind0.symm.trans hfind)
            subst hm0
            have h3 : findMaterial
                (replaceMaterial st mid2 { m0 with downloads := m0.downloads + 1 }) mid2
                = some { m0 with downloads := m0.downloads + 1 } :=
              findMaterial_replace (by simpa using hid0) hfind0
            have hmm : m' = { m0 with downloads := m0.downloads + 1 } :=
              Option.some.inj (h2.symm.trans h3)
            subst hmm
            exact Nat.le_succ _
          · rw [findMaterial_replace_other hmid (by simpa using hid0)] at h2
            have hmm : m = m' := Option.some.inj (hfind.symm.trans h2)
            subst hmm
            exact Nat.le_refl _
  | opDelete c mid2 =>
      rw [step_opDelete] at hfind'
      cases hr : deleteMaterial st c mid2 with
      | error e =>
          rw [hr] at hfind'
          have h2 : findMaterial st mid = some m' := hfind'
          have hmm : m = m' := Option.some.inj (hfind.symm.trans h2)
          subst hmm
          exact Nat.le_refl _
      | ok st1 =>
          rw [hr] at hfind'
          have h2 : findMaterial st1 mid = some m' := hfind'
          obtain ⟨-, -, hst1⟩ := deleteMaterial_ok_inv hr
          subst hst1
          by_cases hmid : mid2 = mid
          · subst hmid
            have hnone : findMaterial
                { st with materials := st.materials.eraseP (fun x => x.id == mid2) } mid2 = none := by
              unfold findMaterial
              simp only []
              exact find?_eraseP_none hnd
            rw [hnone] at h2
            exact absurd h2 (by simp)
          · rw [findMaterial_eraseP_other hmid] at h2
            have hmm : m = m' := Option.some.inj (hfind.symm.trans h2)
            subst hmm
            exact Nat.le_refl _

/-! The claims. -/

/-- C1: the claim says the dashboard returns the five most-recently-created
materials, newest first.  The code applies no sort to `Material.find()` and
takes `slice(0, 5)` of the collection in stored (insertion) order, so on a
store of six materials inserted oldest-first it returns the five oldest
(creation times 1..5) instead of the five newest (6,5,4,3,2), contradicting
the claim and the route's own comment that the list is already sorted by
date. -/
theorem C1_dashboard_recent_unsorted :
    (dashboard exStore6).recentMaterials.map (fun r => r.createdAt) = [1, 2, 3, 4, 5]
    ∧ ((sortByCreatedDesc exStore6.materials).take 5).map (fun m => m.createdAt)
        = [6, 5, 4, 3, 2]
    ∧ (dashboard exStore6).recentMaterials ≠
        ((sortByCreatedDesc exStore6.materials).take 5).map (fun m =>
          ({ id := m.id, title := m.title, subject := m.subject,
             mtype := m.mtype, createdAt := m.createdAt } : RecentMaterial)) := by
  refine ⟨by decide, by decide, by decide⟩

/-- C2 counterexample: with one stored material, a `semester=abc` filter
returns the empty list, not the same result set as the query without the
semester parameter, so the non-parsing semester is not a no-op filter. -/
theorem C2_nan_semester_counterexample :
    getMaterials exSt1 exQBadSem = []
    ∧ getMaterials exSt1 MaterialsQuery.empty = [mkMat 1]
    ∧ getMaterials exSt1 exQBadSem ≠ getMaterials exSt1 MaterialsQuery.empty := by
  refine ⟨by decide, by decide, by decide⟩

/-- C2 (amended): a supplied semester filter value that fails to parse as an
integer makes `query.semester = NaN`, which no stored material satisfies,
so the request succeeds but with an empty result set — it does not behave
as if the semester parameter were absent. -/
theorem C2_nan_semester_empty (st : Store) (q : MaterialsQuery)
    (hsem : jsTruthy q.semester = true)
    (hnan : jsParseInt (q.semester.getD "") = none) :
    getMaterials st q = [] := by
  have hfilter : st.materials.filter (materialMatches q) = [] := by
    apply List.filter_eq_nil_iff.mpr
    intro m hm
    simp [materialMatches, hsem, hnan]
  unfold getMaterials
  rw [hfilter]
  simp [sortByCreatedDesc]

/-- C2 witness: the amended theorem applied to the one-material store and
the `semester=abc` query. -/
theorem C2_nan_semester_empty_witness :
    jsTruthy exQBadSem.semester = true ∧ getMaterials exSt1 exQBadSem = [] :=
  ⟨by decide, C2_nan_semester_empty exSt1 exQBadSem (by decide) (by decide)⟩

/-- C3 counterexample: on a material already liked by user 7, a first toggle
by user 7 answers `(0, isLiked := false)` and the second toggle answers
`(1, isLiked := true)` — the second call does return the original count 1,
but the flag is `true`, not the `false` the claim asserts. -/
theorem C3_double_toggle_counterexample :
    likeMaterial exStLiked exStudent 1 = .ok (exStLiked1, 0, false)
    ∧ likeMaterial exStLiked1 exStudent 1 = .ok (exStLiked, 1, true)
    ∧ (likeMaterial exStLiked1 exStudent 1).toOption.map (fun r => r.2.2) ≠ some false := by
  refine ⟨rfl, rfl, by decide⟩

/-- C3 (amended): toggling twice by the same user restores the likes set
(same members, same size); each call answers the new length of the likes
array and whether the caller is in it after the call, so the second call
answers the original count together with the caller's original membership
flag — `false` exactly when the user had not liked the material before. -/
theorem C3_double_toggle (st : Store) (c : Claims) (mid : Nat) (m : Material)
    (hfind : findMaterial st mid = some m) (hnd : m.likes.Nodup) :
    ∃ st1 st2 m2,
      likeMaterial st c mid =
        .ok (st1, (toggleLike m.likes c.userId).length,
             (toggleLike m.likes c.userId).contains c.userId)
      ∧ likeMaterial st1 c mid = .ok (st2, m.likes.length, m.likes.contains c.userId)
      ∧ findMaterial st2 mid = some m2
      ∧ (∀ x, x ∈ m2.likes ↔ x ∈ m.likes)
      ∧ m2.likes.length = m.likes.length := by
  have hid : m.id = mid := findMaterial_id hfind
  set t1 := toggleLike m.likes c.userId with ht1
  set m1 : Material := { m with likes := t1 } with hm1
  have hcall1 : likeMaterial st c mid = .ok (replaceMaterial st mid m1, t1.length, t1.contains c.userId) := by
    unfold likeMaterial
    rw [hfind]
  have hfind1 : findMaterial (replaceMaterial st mid m1) mid = some m1 :=
    findMaterial_replace (by simpa [hm1] using hid) hfind
  have hlm := @toggleLike_toggleLike m.likes c.userId hnd
  have hcall2 : likeMaterial (replaceMaterial st mid m1) c mid =
      .ok (replaceMaterial (replaceMaterial st mid m1) mid { m1 with likes := toggleLike t1 c.userId },
           m.likes.length, m.likes.contains c.userId) := by
    unfold likeMaterial
    rw [hfind1]
    simp only [hm1]
    rw [hlm.2.1, hlm.2.2]
  have hfind2 : findMaterial
      (replaceMaterial (replaceMaterial st mid m1) mid { m1 with likes := toggleLike t1 c.userId }) mid
      = some { m1 with likes := toggleLike t1 c.userId } :=
    findMaterial_replace (by simpa [hm1] using hid) hfind1
  exact ⟨replaceMaterial st mid m1,
         replaceMaterial (replaceMaterial st mid m1) mid { m1 with likes := toggleLike t1 c.userId },
         { m1 with likes := toggleLike t1 c.userId },
         hcall1, hcall2, hfind2, hlm.1, hlm.2.1⟩

/-- C3 witness: the amended theorem applied to the store whose single
material user 7 already liked. -/
theorem C3_double_toggle_witness :
    ∃ st1 st2 m2,
      likeMaterial exStLiked exStudent 1 =
        .ok (st1, (toggleLike exMatLiked.likes exStudent.userId).length,
             (toggleLike exMatLiked.likes exStudent.userId).contains exStudent.userId)
      ∧ likeMaterial st1 exStudent 1 =
          .ok (st2, exMatLiked.likes.length, exMatLiked.likes.contains exStudent.userId)
      ∧ findMaterial st2 1 = some m2
      ∧ (∀ x, x ∈ m2.likes ↔ x ∈ exMatLiked.likes)
      ∧ m2.likes.length = exMatLiked.likes.length :=
  C3_double_toggle exStLiked exStudent 1 exMatLiked rfl (by decide)

/-- C4: a material passes the filter iff it satisfies every supplied filter
in the claim's sense; the route output is the filtered list sorted by
creation time descending with `skip((page-1)*limit)`/`take(limit)`
pagination; the output is sorted newest-first; and with no page/limit
parameters the defaults page 1 and limit 100 apply. -/
theorem C4_list_materials (st : Store) (q : MaterialsQuery) :
    (∀ m, m ∈ st.materials.filter (materialMatches q) ↔ (m ∈ st.materials ∧ SpecMatches q m))
    ∧ getMaterials st q =
        ((sortByCreatedDesc (st.materials.filter (materialMatches q))).drop
            (((jsOrDefault (jsParseIntOpt q.page) 1 - 1) * jsOrDefault (jsParseIntOpt q.limit) 100).toNat)).take
          (jsOrDefault (jsParseIntOpt q.limit) 100).toNat
    ∧ List.Pairwise (fun a b : Material => b.createdAt ≤ a.createdAt) (getMaterials st q)
    ∧ (q.page = none → q.limit = none →
        getMaterials st q = (sortByCreatedDesc (st.materials.filter (materialMatches q))).take 100) := by
  refine ⟨?_, rfl, ?_, ?_⟩
  · intro m
    rw [List.mem_filter, materialMatches_iff]
  · have hsub : (getMaterials st q).Sublist
        (sortByCreatedDesc (st.materials.filter (materialMatches q))) := by
      simp only [getMaterials]
      exact (List.take_sublist _ _).trans (List.drop_sublist _ _)
    exact List.Pairwise.sublist hsub (sorted_sortByCreatedDesc _)
  · intro hp hl
    simp only [getMaterials, hp, hl]
    simp [jsParseIntOpt, jsOrDefault]

/-- C4 witness: the theorem applied to the one-material store and the
department=CS query with no page or limit parameters. -/
theorem C4_list_materials_witness :
    getMaterials exSt1 exQCS =
      (sortByCreatedDesc (exSt1.materials.filter (materialMatches exQCS))).take 100 :=
  (C4_list_materials exSt1 exQCS).2.2.2 rfl rfl

/-- C5: a non-faculty identity's delete fails with the 403 Forbidden error
and leaves the store unchanged; a faculty identity's delete of an existing
material (ids unique) succeeds and a subsequent lookup of that id fails
with the 404 NotFound error. -/
theorem C5_delete_role_gate (st : Store) (c : Claims) (mid : Nat) :
    (c.role ≠ "faculty" →
       deleteMaterial st c mid = .error (.forbidden "Access denied. Faculty only.")
       ∧ step st (.opDelete c mid) = st)
    ∧ (c.role = "faculty" → ∀ m, findMaterial st mid = some m →
       (st.materials.map (fun x => x.id)).Nodup →
       ∃ st', deleteMaterial st c mid = .ok st'
         ∧ getMaterialById st' mid = .error (.notFound "Material not found")) := by
  constructor
  · intro hne
    have herr : deleteMaterial st c mid = .error (.forbidden "Access denied. Faculty only.") := by
      unfold deleteMaterial
      rw [if_pos (by simp [hne])]
    exact ⟨herr, by rw [step_opDelete, herr]⟩
  · intro hrole m hfind hnd
    have hok : deleteMaterial st c mid =
        .ok { st with materials := st.materials.eraseP (fun x => x.id == mid) } := by
      unfold deleteMaterial
      rw [if_neg (by simp [hrole]), hfind]
    refine ⟨_, hok, ?_⟩
    unfold getMaterialById findMaterial
    simp only []
    rw [find?_eraseP_none hnd]

/-- C5 witness: the theorem applied with the student and faculty claims to
the one-material store. -/
theorem C5_delete_role_gate_witness :
    deleteMaterial exSt1 exStudent 1 = .error (.forbidden "Access denied. Faculty only.")
    ∧ ∃ st', deleteMaterial exSt1 exFaculty 1 = .ok st'
        ∧ getMaterialById st' 1 = .error (.notFound "Material not found") :=
  ⟨((C5_delete_role_gate exSt1 exStudent 1).1 (by decide)).1,
   (C5_delete_role_gate exSt1 exFaculty 1).2 rfl (mkMat 1) rfl (by decide)⟩

/-- C8: the chat responder equals the spec's first-matching-keyword-group
lookup over the fixed priority list (generic menu reply when none match),
and every invocation with a non-empty message persists exactly one chat
document holding the message and the produced response. -/
theorem C8_chat_keyword_responder :
    (∀ msg, chatResponseFor msg = specChatRespond msg)
    ∧ (∀ (st : Store) (c : Claims) (msg : String) (i n : Nat), msg ≠ "" →
        chatRoute st c (some msg) i n =
          .ok ({ st with chats := st.chats ++
                  [{ id := i, userId := c.userId, message := msg,
                     response := chatResponseFor msg, createdAt := n }] },
               chatResponseFor msg)) := by
  refine ⟨chatResponseFor_eq_spec, ?_⟩
  intro st c msg i n hne
  have ht : jsTruthy (some msg) = true := by simp [jsTruthy, hne]
  unfold chatRoute
  rw [if_neg (by simp [ht])]
  rfl

/-- C8 witness: the theorem applied to a concrete greeting message. -/
theorem C8_chat_keyword_responder_witness :
    chatRoute exSt1 exStudent (some "hello") 5 50 =
      .ok ({ exSt1 with chats := exSt1.chats ++
              [{ id := 5, userId := exStudent.userId, message := "hello",
                 response := chatResponseFor "hello", createdAt := 50 }] },
           chatResponseFor "hello") :=
  C8_chat_keyword_responder.2 exSt1 exStudent "hello" 5 50 (by decide)

/-- C9: every successful register, login and identity-lookup response
carries exactly the keys id, name, email, role, department and semester in
its user payload — never the stored password hash. -/
theorem C9_password_never_serialized :
    (∀ (st : Store) (r : RegisterReq) (hf : String → String) (i n : Nat)
        (st' : Store) (a : AuthResp), register st r hf i n = .ok (st', a) →
        a.user.map Prod.fst = ["id", "name", "email", "role", "department", "semester"]
        ∧ "password" ∉ a.user.map Prod.fst)
    ∧ (∀ (st : Store) (e p : Option String) (hf : String → String) (a : AuthResp),
        login st e p hf = .ok a →
        a.user.map Prod.fst = ["id", "name", "email", "role", "department", "semester"]
        ∧ "password" ∉ a.user.map Prod.fst)
    ∧ (∀ (st : Store) (c : Claims) (kvs : List (String × String)),
        getMe st c = .ok kvs →
        kvs.map Prod.fst = ["id", "name", "email", "role", "department", "semester"]
        ∧ "password" ∉ kvs.map Prod.fst) := by
  have hkeys : ∀ u : User,
      (userSummary u).map Prod.fst = ["id", "name", "email", "role", "department", "semester"]
      ∧ "password" ∉ (userSummary u).map Prod.fst := by
    intro u
    have hm : (userSummary u).map Prod.fst
        = ["id", "name", "email", "role", "department", "semester"] := rfl
    refine ⟨hm, ?_⟩
    rw [hm]
    decide
  refine ⟨?_, ?_, ?_⟩
  · intro st r hf i n st' a h
    obtain ⟨-, -, u, -, -, -, hu⟩ := register_ok_inv h
    rw [hu]
    exact hkeys u
  · intro st e p hf a h
    obtain ⟨u, -, hu⟩ := login_ok_inv h
    rw [hu]
    exact hkeys u
  · intro st c kvs h
    obtain ⟨u, -, hu⟩ := getMe_ok_inv h
    rw [hu]
    exact hkeys u

/-- C9 witness: the register branch applied to the concrete registration of
`exReq1` against the empty store. -/
theorem C9_password_never_serialized_witness :
    exResp1.user.map Prod.fst = ["id", "name", "email", "role", "department", "semester"]
    ∧ "password" ∉ exResp1.user.map Prod.fst :=
  C9_password_never_serialized.1 emptyStore exReq1 exHash 1 10 exSt7 exResp1 rfl

/-- C6: N sequential download calls on an existing material leave it with a
counter increased by exactly N (each call adds 1 unconditionally, with no
deduplication), and no store-mutating operation of the system ever
decreases the download counter of a material that survives it (ids
unique). -/
theorem C6_download_counter :
    (∀ (st : Store) (mid : Nat) (m : Material) (N : Nat),
       findMaterial st mid = some m →
       ∃ st', downloadIter st mid N = .ok st'
         ∧ ∃ m', findMaterial st' mid = some m' ∧ m'.downloads = m.downloads + N)
    ∧ (∀ (st : Store) (op : Op) (mid : Nat) (m m' : Material),
       (st.materials.map (fun x => x.id)).Nodup →
       findMaterial st mid = some m →
       findMaterial (step st op) mid = some m' →
       m.downloads ≤ m'.downloads) :=
  ⟨fun st mid m N h => downloadIter_ok mid N st m h,
   fun st op mid m m' hnd h h' => downloads_mono_step st op mid m m' hnd h h'⟩

/-- C6 witness: three downloads on the one-material store end with counter
3, and one download step does not decrease the counter. -/
theorem C6_download_counter_witness :
    (∃ st', downloadIter exSt1 1 3 = .ok st'
       ∧ ∃ m', findMaterial st' 1 = some m' ∧ m'.downloads = (mkMat 1).downloads + 3)
    ∧ (mkMat 1).downloads ≤ ({ mkMat 1 with downloads := (mkMat 1).downloads + 1 } : Material).downloads :=
  ⟨C6_download_counter.1 exSt1 1 (mkMat 1) 3 rfl,
   C6_download_counter.2 exSt1 (.opDownload 1) 1 (mkMat 1)
     { mkMat 1 with downloads := (mkMat 1).downloads + 1 } (by decide) rfl rfl⟩

/-- C7 counterexample: after a successful registration of `F@X.com `, a
second registration with the same email up to case and trimming but an
empty password fails with the field-presence validation error, not the
duplicate-email error — the duplicate check is not reached, so the claim's
`regardless of its password or other fields` does not hold. -/
theorem C7_duplicate_email_counterexample :
    normEmail (exReq1.email.getD "") = normEmail (exReq2.email.getD "")
    ∧ register emptyStore exReq1 exHash 1 10 = .ok (exSt7, exResp1)
    ∧ register exSt7 exReq2 exHash 2 20 = .error (.badRequest "All fields are required")
    ∧ register exSt7 exReq2 exHash 2 20 ≠ .error (.badRequest "User already exists with this email")
    ∧ step exSt7 (.opRegister exReq2 exHash 2 20) = exSt7 := by
  refine ⟨by decide, rfl, rfl, ?_, rfl⟩
  intro hc
  rw [show register exSt7 exReq2 exHash 2 20 = .error (.badRequest "All fields are required") from rfl] at hc
  simp at hc

/-- C7 (amended): after a successful registration, a second Register call
whose email equals the first up to case and trimming and whose required
fields (name, email, password, role) are all present fails with the
duplicate-email error regardless of the password's and other fields'
values, and no second user record is created; when a required field is
missing or empty the call instead fails with the field-presence validation
error (still creating nothing). -/
theorem C7_duplicate_email (st : Store) (r1 r2 : RegisterReq) (hf : String → String)
    (i1 n1 i2 n2 : Nat) (st1 : Store) (a1 : AuthResp)
    (h1 : register st r1 hf i1 n1 = .ok (st1, a1))
    (hemail : normEmail (r1.email.getD "") = normEmail (r2.email.getD ""))
    (hn : jsTruthy r2.name = true) (he : jsTruthy r2.email = true)
    (hp : jsTruthy r2.password = true) (hr : jsTruthy r2.role = true) :
    register st1 r2 hf i2 n2 = .error (.badRequest "User already exists with this email")
    ∧ step st1 (.opRegister r2 hf i2 n2) = st1 := by
  obtain ⟨-, -, u, husers, huemail, hnone, -⟩ := register_ok_inv h1
  have hfu : List.find? (fun x => x.email == normEmail (r1.email.getD "")) [u] = some u := by
    simp [List.find?, huemail]
  have hfind : st1.users.find? (fun x => x.email == normEmail (r2.email.getD "")) = some u := by
    rw [husers, ← hemail, List.find?_append, hnone, hfu]
    rfl
  have herr : register st1 r2 hf i2 n2 =
      .error (.badRequest "User already exists with this email") := by
    unfold register
    rw [if_neg (by simp [hn, he, hp, hr])]
    simp only []
    rw [hfind]
  exact ⟨herr, by rw [step_opRegister, herr]⟩

/-- C7 witness: the amended theorem applied to the concrete first
registration and a fully-populated second request with the same email up to
case. -/
theorem C7_duplicate_email_witness :
    register exSt7 exReq3 exHash 2 20 = .error (.badRequest "User already exists with this email")
    ∧ step exSt7 (.opRegister exReq3 exHash 2 20) = exSt7 :=
  C7_duplicate_email emptyStore exReq1 exReq3 exHash 1 10 2 20 exSt7 exResp1 rfl
    (by decide) (by decide) (by decide) (by decide) (by decide)

/-- C10: a chat request whose message is absent or empty fails with the 400
validation error `Message is required` before any keyword matching, and no
chat document is persisted (the store is unchanged). -/
theorem C10_chat_requires_message (st : Store) (c : Claims) (i n : Nat)
    (msg : Option String) (h : msg = none ∨ msg = some "") :
    chatRoute st c msg i n = .error (.badRequest "Message is required")
    ∧ step st (.opChat c msg i n) = st := by
  have ht : jsTruthy msg = false := by
    rcases h with h | h <;> simp [h, jsTruthy]
  have herr : chatRoute st c msg i n = .error (.badRequest "Message is required") := by
    unfold chatRoute
    rw [if_pos (by simp [ht])]
  refine ⟨herr, ?_⟩
  rw [step_opChat, herr]

/-- C10 witness: the theorem applied to an absent message against the
one-material store. -/
theorem C10_chat_requires_message_witness :
    chatRoute exSt1 exStudent none 5 50 = .error (.badRequest "Message is required")
    ∧ step exSt1 (.opChat exStudent none 5 50) = exSt1 :=
  C10_chat_requires_message exSt1 exStudent 5 50 none (Or.inl rfl)

end ExamPortal
